import Mathlib

/-!
Shallow embedding of the fuel-route planner of
`fuel_optimizer/routing/views.py` (Fuel-Station-Tracker), together with
theorems settling the behavioural claims about it.

Modelling conventions:
* Python floats are modelled by `ℚ`.  The claims under study concern
  control flow, filtering, counting and accumulation structure, and every
  literal constant in the source (500.0, 25.0, 0.04, 0.002, 40.0, ...) is
  exactly representable in `ℚ`.
* The transcendental helpers (`_haversine_miles`, and the cosine used by
  `_route_bbox`) are abstracted as function parameters `hav` and `rcos`;
  every theorem below is quantified over them and therefore holds in
  particular for the real haversine and cosine.
* Python `round(x, n)` is modelled as nearest-integer rounding of
  `x * 10^n`; the tie-at-half-ulp behaviour of binary floats is not
  exercised by any statement below.
-/

namespace FuelRouting

/-- Source constant `MPG = 10.0` (views.py line 13). -/
def MPG : ℚ := 10

/-- Source constant `MAX_RANGE_MILES = 500.0` (views.py line 14). -/
def MAX_RANGE_MILES : ℚ := 500

/-- Source constant `CORRIDOR_RADIUS_MILES = 25.0` (views.py line 15). -/
def CORRIDOR_RADIUS_MILES : ℚ := 25

/-- Source constant `WAYPOINT_WINDOWS_MILES = (60.0, 120.0, 200.0, 320.0)`
(views.py line 16). -/
def WAYPOINT_WINDOWS_MILES : List ℚ := [60, 120, 200, 320]

/-- Source constant `DETOUR_WEIGHT = 0.04` (views.py line 17). -/
def DETOUR_WEIGHT : ℚ := 4 / 100

/-- Source constant `WAYPOINT_WEIGHT = 0.002` (views.py line 18). -/
def WAYPOINT_WEIGHT : ℚ := 2 / 1000

/-- Model of Python `round(x, 2)` (nearest integer number of hundredths). -/
def round2 (x : ℚ) : ℚ := ((round (100 * x) : ℤ) : ℚ) / 100

/-- Model of Python `round(x, 3)` (nearest integer number of thousandths). -/
def round3 (x : ℚ) : ℚ := ((round (1000 * x) : ℤ) : ℚ) / 1000

/-! The `while marker < total_miles` loop of `_build_waypoint_markers`
(views.py lines 198-206), embedded as well-founded recursion on the number
of remaining 500-mile steps. -/

/-- Loop body of `_build_waypoint_markers`: emit `marker` and advance by
`MAX_RANGE_MILES` while `marker < total`. -/
def markers_loop (total marker : ℚ) : List ℚ :=
  if _h : marker < total then
    marker :: markers_loop total (marker + MAX_RANGE_MILES)
  else []
termination_by (⌈(total - marker) / MAX_RANGE_MILES⌉).toNat
decreasing_by
  have h500 : (0:ℚ) < MAX_RANGE_MILES := by norm_num [MAX_RANGE_MILES]
  have hx : (0:ℚ) < (total - marker) / MAX_RANGE_MILES :=
    div_pos (by linarith) h500
  have hceil : 0 < ⌈(total - marker) / MAX_RANGE_MILES⌉ := Int.ceil_pos.mpr hx
  have harg : (total - (marker + MAX_RANGE_MILES)) / MAX_RANGE_MILES
      = (total - marker) / MAX_RANGE_MILES - 1 := by
    rw [show total - (marker + MAX_RANGE_MILES)
          = (total - marker) - MAX_RANGE_MILES by ring, sub_div,
        div_self (by norm_num [MAX_RANGE_MILES] : (MAX_RANGE_MILES : ℚ) ≠ 0)]
  rw [harg, Int.ceil_sub_one]
  omega

/-- Embedding of `_build_waypoint_markers(total_miles, start_with_full_tank)`
(views.py lines 198-206). -/
def build_waypoint_markers (total_miles : ℚ) (start_with_full_tank : Bool) :
    List ℚ :=
  if total_miles ≤ 0 then []
  else markers_loop total_miles (if start_with_full_tank then MAX_RANGE_MILES else 0)

theorem markers_loop_eq_nil (total marker : ℚ) (h : ¬ marker < total) :
    markers_loop total marker = [] := by
  rw [markers_loop, dif_neg h]

theorem markers_loop_head? (total marker : ℚ) :
    (markers_loop total marker).head? =
      if marker < total then some marker else none := by
  rw [markers_loop]
  split <;> simp

theorem markers_loop_mem_lt (total marker : ℚ) :
    ∀ m ∈ markers_loop total marker, m < total := by
  induction marker using markers_loop.induct total with
  | case1 marker h ih =>
    rw [markers_loop, dif_pos h]
    intro m hm
    rcases List.mem_cons.mp hm with rfl | hm
    · exact h
    · exact ih m hm
  | case2 marker h =>
    rw [markers_loop, dif_neg h]
    intro m hm
    exact absurd hm (List.not_mem_nil m)

theorem markers_loop_chain_step (total marker : ℚ) :
    List.Chain' (fun a b => b = a + MAX_RANGE_MILES) (markers_loop total marker) := by
  induction marker using markers_loop.induct total with
  | case1 marker h ih =>
    rw [markers_loop, dif_pos h]
    refine List.chain'_cons'.mpr ⟨?_, ih⟩
    intro y hy
    rw [markers_loop_head?] at hy
    split at hy
    · cases hy; rfl
    · cases hy
  | case2 marker h =>
    rw [markers_loop, dif_neg h]
    exact List.chain'_nil

theorem markers_loop_chain_lt (total marker : ℚ) :
    List.Chain' (· < ·) (markers_loop total marker) := by
  induction marker using markers_loop.induct total with
  | case1 marker h ih =>
    rw [markers_loop, dif_pos h]
    refine List.chain'_cons'.mpr ⟨?_, ih⟩
    intro y hy
    rw [markers_loop_head?] at hy
    split at hy
    · cases hy
      norm_num [MAX_RANGE_MILES]
    · cases hy
  | case2 marker h =>
    rw [markers_loop, dif_neg h]
    exact List.chain'_nil

theorem markers_loop_length (total marker : ℚ) :
    (markers_loop total marker).length
      = (⌈(total - marker) / MAX_RANGE_MILES⌉).toNat := by
  induction marker using markers_loop.induct total with
  | case1 marker h ih =>
    rw [markers_loop, dif_pos h]
    have h500 : (0:ℚ) < MAX_RANGE_MILES := by norm_num [MAX_RANGE_MILES]
    have hx : (0:ℚ) < (total - marker) / MAX_RANGE_MILES :=
      div_pos (by linarith) h500
    have hceil : 0 < ⌈(total - marker) / MAX_RANGE_MILES⌉ := Int.ceil_pos.mpr hx
    have harg : (total - (marker + MAX_RANGE_MILES)) / MAX_RANGE_MILES
        = (total - marker) / MAX_RANGE_MILES - 1 := by
      rw [show total - (marker + MAX_RANGE_MILES)
            = (total - marker) - MAX_RANGE_MILES by ring, sub_div,
          div_self (by norm_num [MAX_RANGE_MILES] : (MAX_RANGE_MILES : ℚ) ≠ 0)]
    rw [List.length_cons, ih, harg, Int.ceil_sub_one]
    omega
  | case2 marker h =>
    rw [markers_loop, dif_neg h]
    have hle : total - marker ≤ 0 := by linarith [not_lt.mp h]
    have h500 : (0:ℚ) < MAX_RANGE_MILES := by norm_num [MAX_RANGE_MILES]
    have : (total - marker) / MAX_RANGE_MILES ≤ 0 := div_nonpos_of_nonpos_of_nonneg hle h500.le
    have : ⌈(total - marker) / MAX_RANGE_MILES⌉ ≤ 0 :=
      Int.ceil_le.mpr (by exact_mod_cast this)
    simp only [List.length_nil]
    omega

theorem build_waypoint_markers_head? (total : ℚ) (full : Bool) :
    (build_waypoint_markers total full).head? =
      if total ≤ 0 then none
      else if (if full then MAX_RANGE_MILES else 0) < total
        then some (if full then MAX_RANGE_MILES else 0) else none := by
  unfold build_waypoint_markers
  split
  · simp
  · exact markers_loop_head? total _

/-- C3: `_build_waypoint_markers` returns a strictly ascending sequence of
mile offsets, consecutive offsets exactly `MAX_RANGE_MILES = 500` apart,
each strictly below `total_miles`; the first element (when the sequence is
non-empty) is 500 when `start_with_full_tank` is true and 0 otherwise; and
the result is empty whenever `total_miles ≤ 0`. -/
theorem build_waypoint_markers_shape (total : ℚ) (full : Bool) :
    List.Chain' (· < ·) (build_waypoint_markers total full) ∧
    List.Chain' (fun a b => b = a + MAX_RANGE_MILES)
      (build_waypoint_markers total full) ∧
    (∀ m ∈ build_waypoint_markers total full, m < total) ∧
    (∀ x, (build_waypoint_markers total full).head? = some x →
      x = if full then MAX_RANGE_MILES else 0) ∧
    (total ≤ 0 → build_waypoint_markers total full = []) := by
  refine ⟨?_, ?_, ?_, ?_, ?_⟩
  · unfold build_waypoint_markers
    split
    · exact List.chain'_nil
    · exact markers_loop_chain_lt total _
  · unfold build_waypoint_markers
    split
    · exact List.chain'_nil
    · exact markers_loop_chain_step total _
  · unfold build_waypoint_markers
    split
    · intro m hm
      exact absurd hm (List.not_mem_nil m)
    · exact markers_loop_mem_lt total _
  · intro x hx
    rw [build_waypoint_markers_head?] at hx
    by_cases h0 : total ≤ 0
    · rw [if_pos h0] at hx
      cases hx
    · rw [if_neg h0] at hx
      by_cases hc : (if full then MAX_RANGE_MILES else 0) < total
      · rw [if_pos hc] at hx
        exact (Option.some.inj hx).symm
      · rw [if_neg hc] at hx
        cases hx
  · intro hle
    unfold build_waypoint_markers
    rw [if_pos hle]

/-- Witness for the C3 theorem at concrete inputs: `total = -5`, full tank. -/
theorem build_waypoint_markers_shape_witness :
    ((-5 : ℚ) ≤ 0) ∧ build_waypoint_markers (-5) true = [] :=
  ⟨by norm_num, (build_waypoint_markers_shape (-5) true).2.2.2.2 (by norm_num)⟩

/-- C4: for `D > 0`, the number of markers with `start_with_full_tank=false`
is `⌈D / 500⌉`, and with `start_with_full_tank=true` it is at least one
smaller. -/
theorem waypoint_marker_count (D : ℚ) (h : 0 < D) :
    (build_waypoint_markers D false).length = (⌈D / 500⌉).toNat ∧
    (build_waypoint_markers D true).length + 1
      ≤ (build_waypoint_markers D false).length := by
  have hno : ¬ D ≤ 0 := not_le.mpr h
  have hceil : 0 < ⌈D / 500⌉ :=
    Int.ceil_pos.mpr (div_pos h (by norm_num))
  have hfalse : (build_waypoint_markers D false).length = (⌈D / 500⌉).toNat := by
    unfold build_waypoint_markers
    rw [if_neg hno, if_neg (by decide : ¬ false = true)]
    rw [markers_loop_length]
    norm_num [MAX_RANGE_MILES]
  have htrue : (build_waypoint_markers D true).length = (⌈D / 500⌉ - 1).toNat := by
    unfold build_waypoint_markers
    rw [if_neg hno, if_pos rfl, markers_loop_length]
    have harg : (D - MAX_RANGE_MILES) / MAX_RANGE_MILES = D / 500 - 1 := by
      rw [sub_div, div_self (by norm_num [MAX_RANGE_MILES] : (MAX_RANGE_MILES : ℚ) ≠ 0)]
      norm_num [MAX_RANGE_MILES]
    rw [harg, Int.ceil_sub_one]
  refine ⟨hfalse, ?_⟩
  rw [hfalse, htrue]
  omega

/-- Witness for the C4 theorem at the concrete distance `D = 1234`. -/
theorem waypoint_marker_count_witness :
    (0 : ℚ) < 1234 ∧
    ((build_waypoint_markers 1234 false).length = (⌈(1234 : ℚ) / 500⌉).toNat ∧
      (build_waypoint_markers 1234 true).length + 1
        ≤ (build_waypoint_markers 1234 false).length) :=
  ⟨by norm_num, waypoint_marker_count 1234 (by norm_num)⟩

/-! Station records (the dicts produced by `_load_station_rows`, views.py
lines 132-152) and corridor-mapped stations (the dicts produced by
`_map_stations_to_route`, views.py lines 155-195). -/

/-- Row of the station dataset as loaded by `_load_station_rows`. -/
structure Station where
  name : String
  city : String
  state : String
  price : ℚ
  latitude : ℚ
  longitude : ℚ
deriving DecidableEq

/-- Station annotated with `route_mile` and `detour_miles` by
`_map_stations_to_route`. -/
structure MappedStation extends Station where
  route_mile : ℚ
  detour_miles : ℚ
deriving DecidableEq

/-- Embedding of `_score_station(station, marker)` (views.py lines 209-214). -/
def score_station (s : MappedStation) (marker : ℚ) : ℚ :=
  s.price + s.detour_miles * DETOUR_WEIGHT
    + |s.route_mile - marker| * WAYPOINT_WEIGHT

/-- Model of Python's builtin `min(xs, key=f)`: fold left, replacing the
current best only on a strictly smaller key, so the earliest minimal
element wins; `none` on an empty list (where Python raises). -/
def py_min_by (f : α → ℚ) : List α → Option α
  | [] => none
  | x :: xs => some (xs.foldl (fun b y => if f y < f b then y else b) x)

/-- Specification-side formulation of "the candidate minimizing the score,
ties broken by first position": keep the earliest element whose key is no
larger than the best key of the remainder. -/
def first_min_by (f : α → ℚ) : List α → Option α
  | [] => none
  | x :: xs =>
    match first_min_by f xs with
    | none => some x
    | some c => some (if f x ≤ f c then x else c)

theorem first_min_by_eq_none_iff (f : α → ℚ) (xs : List α) :
    first_min_by f xs = none ↔ xs = [] := by
  cases xs with
  | nil => simp [first_min_by]
  | cons x xs =>
    simp only [first_min_by]
    constructor
    · intro h
      cases hx : first_min_by f xs <;> rw [hx] at h <;> cases h
    · intro h
      cases h

theorem first_min_by_mem (f : α → ℚ) (xs : List α) (r : α)
    (h : first_min_by f xs = some r) : r ∈ xs := by
  induction xs generalizing r with
  | nil => cases h
  | cons x xs ih =>
    simp only [first_min_by] at h
    cases hx : first_min_by f xs with
    | none =>
      rw [hx] at h
      have hxr : x = r := Option.some.inj h
      subst hxr
      exact List.mem_cons_self x xs
    | some c =>
      rw [hx] at h
      have hr : (if f x ≤ f c then x else c) = r := Option.some.inj h
      by_cases hle : f x ≤ f c
      · rw [if_pos hle] at hr
        subst hr
        exact List.mem_cons_self x xs
      · rw [if_neg hle] at hr
        subst hr
        exact List.mem_cons_of_mem x (ih c hx)

theorem first_min_by_le (f : α → ℚ) (xs : List α) (r : α)
    (h : first_min_by f xs = some r) : ∀ y ∈ xs, f r ≤ f y := by
  induction xs generalizing r with
  | nil => cases h
  | cons x xs ih =>
    simp only [first_min_by] at h
    intro y hy
    cases hx : first_min_by f xs with
    | none =>
      rw [hx] at h
      have hxr : x = r := Option.some.inj h
      subst hxr
      have hnil : xs = [] := (first_min_by_eq_none_iff f xs).mp hx
      subst hnil
      rcases List.mem_cons.mp hy with rfl | hy
      · exact le_refl _
      · exact absurd hy (List.not_mem_nil y)
    | some c =>
      rw [hx] at h
      have hr : (if f x ≤ f c then x else c) = r := Option.some.inj h
      rcases List.mem_cons.mp hy with rfl | hy
      · by_cases hle : f y ≤ f c
        · rw [if_pos hle] at hr
          subst hr
          exact le_refl _
        · rw [if_neg hle] at hr
          subst hr
          exact le_of_lt (not_le.mp hle)
      · have hc := ih c hx y hy
        by_cases hle : f x ≤ f c
        · rw [if_pos hle] at hr
          subst hr
          exact le_trans hle hc
        · rw [if_neg hle] at hr
          subst hr
          exact hc

theorem py_min_fold_eq (f : α → ℚ) (xs : List α) :
    ∀ b : α, xs.foldl (fun b y => if f y < f b then y else b) b
      = (match first_min_by f xs with
          | none => b
          | some c => if f c < f b then c else b) := by
  induction xs with
  | nil => intro b; rfl
  | cons x xs ih =>
    intro b
    rw [List.foldl_cons, ih]
    simp only [first_min_by]
    cases hx : first_min_by f xs with
    | none => rfl
    | some c =>
      simp only []
      split_ifs <;> first | rfl | linarith

/-- Python `min(xs, key=f)` returns the earliest element attaining the
minimal key. -/
theorem py_min_by_eq_first_min_by (f : α → ℚ) (xs : List α) :
    py_min_by f xs = first_min_by f xs := by
  cases xs with
  | nil => rfl
  | cons x xs =>
    simp only [py_min_by, first_min_by]
    rw [py_min_fold_eq]
    cases hx : first_min_by f xs with
    | none => rfl
    | some c =>
      simp only []
      by_cases hle : f x ≤ f c
      · rw [if_neg (not_lt.mpr hle), if_pos hle]
      · rw [if_pos (not_le.mp hle), if_neg hle]

/-- Candidate filter of `_select_station`'s window loop (views.py lines
221-226): stations within `w` route miles of the marker that do not
backtrack more than 40 miles behind `previous_marker`. -/
def window_candidates (mapped : List MappedStation)
    (marker previous_marker w : ℚ) : List MappedStation :=
  mapped.filter (fun s =>
    decide (|s.route_mile - marker| ≤ w) &&
    decide (s.route_mile ≥ previous_marker - 40))

/-- First fallback filter of `_select_station` (views.py lines 230-234):
drop only the backtracking stations. -/
def backtrack_candidates (mapped : List MappedStation)
    (previous_marker : ℚ) : List MappedStation :=
  mapped.filter (fun s => decide (s.route_mile ≥ previous_marker - 40))

/-- The `for window in WAYPOINT_WINDOWS_MILES` loop of `_select_station`
together with its two fallbacks (views.py lines 220-237). -/
def select_station_go (mapped : List MappedStation)
    (marker previous_marker : ℚ) : List ℚ → Option MappedStation
  | [] =>
    let cs := backtrack_candidates mapped previous_marker
    let cs := if cs.isEmpty then mapped else cs
    py_min_by (fun s => score_station s marker) cs
  | w :: ws =>
    let cs := window_candidates mapped marker previous_marker w
    if cs.isEmpty then select_station_go mapped marker previous_marker ws
    else py_min_by (fun s => score_station s marker) cs

/-- Embedding of `_select_station(mapped_stations, marker, previous_marker)`
(views.py lines 217-237). -/
def select_station (mapped : List MappedStation)
    (marker previous_marker : ℚ) : Option MappedStation :=
  if mapped.isEmpty then none
  else select_station_go mapped marker previous_marker WAYPOINT_WINDOWS_MILES

/-- Specification-side formulation of the selection procedure, from the
spec's wording: the first window radius (in ascending order) whose
candidate set is non-empty yields the score-minimizing candidate with
first-position tie-break; if all windows are empty, the backtrack-tolerant
set is used, and if that is empty too, the entire mapped set. -/
def select_station_spec (mapped : List MappedStation)
    (marker previous_marker : ℚ) : Option MappedStation :=
  match WAYPOINT_WINDOWS_MILES.findSome? (fun w =>
      first_min_by (fun s => score_station s marker)
        (window_candidates mapped marker previous_marker w)) with
  | some r => some r
  | none =>
    let cs := backtrack_candidates mapped previous_marker
    if cs = [] then first_min_by (fun s => score_station s marker) mapped
    else first_min_by (fun s => score_station s marker) cs

theorem select_station_go_eq (mapped : List MappedStation)
    (marker previous_marker : ℚ) (ws : List ℚ) :
    select_station_go mapped marker previous_marker ws
      = (match ws.findSome? (fun w =>
            first_min_by (fun s => score_station s marker)
              (window_candidates mapped marker previous_marker w)) with
          | some r => some r
          | none =>
            let cs := backtrack_candidates mapped previous_marker
            if cs = [] then first_min_by (fun s => score_station s marker) mapped
            else first_min_by (fun s => score_station s marker) cs) := by
  induction ws with
  | nil =>
    simp only [select_station_go, List.findSome?_nil]
    by_cases h : backtrack_candidates mapped previous_marker = []
    · rw [h]
      simp only [List.isEmpty_nil, if_true]
      exact py_min_by_eq_first_min_by _ _
    · have hne : (backtrack_candidates mapped previous_marker).isEmpty = false := by
        cases hcs : backtrack_candidates mapped previous_marker with
        | nil => exact absurd hcs h
        | cons a l => rfl
      rw [hne, if_neg h]
      simp only [Bool.false_eq_true, if_false]
      exact py_min_by_eq_first_min_by _ _
  | cons w ws ih =>
    simp only [select_station_go, List.findSome?_cons]
    by_cases h : window_candidates mapped marker previous_marker w = []
    · rw [h]
      simp only [List.isEmpty_nil, if_true, first_min_by]
      exact ih
    · have hne : (window_candidates mapped marker previous_marker w).isEmpty = false := by
        cases hcs : window_candidates mapped marker previous_marker w with
        | nil => exact absurd hcs h
        | cons a l => rfl
      rw [hne]
      simp only [Bool.false_eq_true, if_false]
      rw [py_min_by_eq_first_min_by]
      cases hfm : first_min_by (fun s => score_station s marker)
          (window_candidates mapped marker previous_marker w) with
      | none => exact absurd ((first_min_by_eq_none_iff _ _).mp hfm) h
      | some r => rfl

/-- C2: `_select_station` implements exactly the windowed relaxation
procedure of the spec (ascending windows 60, 120, 200, 320 with the 40-mile
backtrack tolerance, then the backtrack-only fallback, then the whole
mapped set, always choosing the score-minimizing candidate with
first-position tie-break), and it returns no station exactly when the
mapped-station list is empty. -/
theorem select_station_correct (mapped : List MappedStation)
    (marker previous_marker : ℚ) :
    select_station mapped marker previous_marker
        = select_station_spec mapped marker previous_marker ∧
    (select_station mapped marker previous_marker = none ↔ mapped = []) := by
  have heq : select_station mapped marker previous_marker
      = select_station_spec mapped marker previous_marker := by
    cases mapped with
    | nil => rfl
    | cons s rest =>
      unfold select_station select_station_spec
      rw [select_station_go_eq]
      rfl
  refine ⟨heq, ?_, fun h => by rw [h]; rfl⟩
  intro hnone
  by_contra hne
  rw [heq] at hnone
  unfold select_station_spec at hnone
  cases hfs : WAYPOINT_WINDOWS_MILES.findSome? (fun w =>
      first_min_by (fun s => score_station s marker)
        (window_candidates mapped marker previous_marker w)) with
  | some r => rw [hfs] at hnone; cases hnone
  | none =>
    rw [hfs] at hnone
    simp only [] at hnone
    by_cases hcs : backtrack_candidates mapped previous_marker = []
    · rw [if_pos hcs] at hnone
      exact hne ((first_min_by_eq_none_iff _ _).mp hnone)
    · rw [if_neg hcs] at hnone
      exact hcs ((first_min_by_eq_none_iff _ _).mp hnone)

/-- Witness for the C2 theorem: at an empty mapped set the selector
returns no station. -/
theorem select_station_correct_witness :
    select_station [] 0 0 = none :=
  (select_station_correct [] 0 0).2.mpr rfl

/-- Minimum of a list of rationals, as Python `min(xs)`; the `0` default is
never reached at the call sites, which pass a non-empty list. -/
def list_min (xs : List ℚ) : ℚ :=
  match xs with
  | [] => 0
  | x :: rest => rest.foldl min x

/-- Maximum of a list of rationals, as Python `max(xs)`; the `0` default is
never reached at the call sites, which pass a non-empty list. -/
def list_max (xs : List ℚ) : ℚ :=
  match xs with
  | [] => 0
  | x :: rest => rest.foldl max x

/-- Embedding of `_route_bbox(route_points, padding_miles)` (views.py lines
117-129); `rcos` abstracts `math.cos(math.radians(.))`.  Route points are
`(latitude, longitude)` pairs; the result is
`(lat_min, lat_max, lon_min, lon_max)` after padding. -/
def route_bbox (rcos : ℚ → ℚ) (route_points : List (ℚ × ℚ))
    (padding_miles : ℚ) : ℚ × ℚ × ℚ × ℚ :=
  let lats := route_points.map Prod.fst
  let lons := route_points.map Prod.snd
  let lat_pad := padding_miles / 69
  let mid_lat := (list_min lats + list_max lats) / 2
  let lon_denominator := (69172 / 1000) * max (2 / 10) |rcos mid_lat|
  let lon_pad := padding_miles / lon_denominator
  (list_min lats - lat_pad, list_max lats + lat_pad,
   list_min lons - lon_pad, list_max lons + lon_pad)

/-- Python `range(0, n, stride)` for `stride ≥ 1`. -/
def py_range (n stride : ℕ) : List ℕ :=
  (List.range ((n + stride - 1) / stride)).map (fun k => k * stride)

/-- The downsampled route indexes of `_map_stations_to_route` (views.py
lines 170-173): stride `max 1 (len // 800)`, final index appended when the
last sampled index is not already the final one. -/
def sampled_indexes (n : ℕ) : List ℕ :=
  let stride := max 1 (n / 800)
  let idxs := py_range n stride
  if idxs.getLast? = some (n - 1) then idxs else idxs ++ [n - 1]

/-- The nearest-sampled-point search of `_map_stations_to_route` (views.py
lines 176-186): running strict minimum of `hav` over the sampled indexes,
starting from `best_distance = inf` (modelled as `none`) and
`best_index = 0`. -/
def best_sample (hav : ℚ → ℚ → ℚ → ℚ → ℚ) (s : Station)
    (route_points : List (ℚ × ℚ)) (idxs : List ℕ) : Option ℚ × ℕ :=
  idxs.foldl
    (fun acc idx =>
      let p := route_points.getD idx (0, 0)
      let d := hav s.latitude s.longitude p.1 p.2
      match acc.1 with
      | none => (some d, idx)
      | some bd => if d < bd then (some d, idx) else acc)
    (none, 0)

/-- Per-candidate step of `_map_stations_to_route` (views.py lines
176-194): locate the nearest sampled route point and keep the station only
when its minimum distance is within the corridor radius. -/
def corridor_entry (hav : ℚ → ℚ → ℚ → ℚ → ℚ) (route_points : List (ℚ × ℚ))
    (idxs : List ℕ) (cumulative : List ℚ) (s : Station) :
    Option MappedStation :=
  match best_sample hav s route_points idxs with
  | (some bd, bi) =>
    if bd ≤ CORRIDOR_RADIUS_MILES then
      some { toStation := s, route_mile := cumulative.getD bi 0,
             detour_miles := bd }
    else none
  | (none, _) => none

/-- Embedding of `_map_stations_to_route(route_points, cumulative)`
(views.py lines 155-195), with the station dataset and the transcendental
helpers passed as parameters. -/
def map_stations_to_route (hav : ℚ → ℚ → ℚ → ℚ → ℚ) (rcos : ℚ → ℚ)
    (stations : List Station) (route_points : List (ℚ × ℚ))
    (cumulative : List ℚ) : List MappedStation :=
  if route_points.isEmpty then []
  else
    let bb := route_bbox rcos route_points (CORRIDOR_RADIUS_MILES + 20)
    let candidates := stations.filter (fun s =>
      decide (bb.1 ≤ s.latitude) && decide (s.latitude ≤ bb.2.1) &&
      decide (bb.2.2.1 ≤ s.longitude) && decide (s.longitude ≤ bb.2.2.2))
    if candidates.isEmpty then []
    else
      candidates.filterMap
        (corridor_entry hav route_points (sampled_indexes route_points.length)
          cumulative)

theorem corridor_entry_detour_le (hav : ℚ → ℚ → ℚ → ℚ → ℚ)
    (route_points : List (ℚ × ℚ)) (idxs : List ℕ) (cumulative : List ℚ)
    (s : Station) (m : MappedStation)
    (h : corridor_entry hav route_points idxs cumulative s = some m) :
    m.detour_miles ≤ CORRIDOR_RADIUS_MILES := by
  unfold corridor_entry at h
  split at h
  · split at h
    · rename_i hle
      cases h
      exact hle
    · cases h
  · cases h

/-- Every station admitted by the corridor indexer carries
`detour_miles ≤ CORRIDOR_RADIUS_MILES`. -/
theorem map_stations_to_route_detour_le (hav : ℚ → ℚ → ℚ → ℚ → ℚ)
    (rcos : ℚ → ℚ) (stations : List Station)
    (route_points : List (ℚ × ℚ)) (cumulative : List ℚ) :
    ∀ s ∈ map_stations_to_route hav rcos stations route_points cumulative,
      s.detour_miles ≤ CORRIDOR_RADIUS_MILES := by
  intro s hs
  simp only [map_stations_to_route] at hs
  split at hs
  · exact absurd hs (List.not_mem_nil s)
  · split at hs
    · exact absurd hs (List.not_mem_nil s)
    · obtain ⟨a, _, ha⟩ := List.mem_filterMap.mp hs
      exact corridor_entry_detour_le _ _ _ _ _ _ ha

/-- The selector only returns members of the mapped set it is given. -/
theorem select_station_mem (mapped : List MappedStation)
    (marker previous_marker : ℚ) (s : MappedStation)
    (h : select_station mapped marker previous_marker = some s) : s ∈ mapped := by
  rw [(select_station_correct mapped marker previous_marker).1] at h
  unfold select_station_spec at h
  cases hfs : WAYPOINT_WINDOWS_MILES.findSome? (fun w =>
      first_min_by (fun t => score_station t marker)
        (window_candidates mapped marker previous_marker w)) with
  | some r =>
    rw [hfs] at h
    obtain ⟨w, _, hw⟩ := List.exists_of_findSome?_eq_some hfs
    cases h
    exact List.mem_of_mem_filter (first_min_by_mem _ _ _ hw)
  | none =>
    rw [hfs] at h
    simp only [] at h
    by_cases hcs : backtrack_candidates mapped previous_marker = []
    · rw [if_pos hcs] at h
      exact first_min_by_mem _ _ _ h
    · rw [if_neg hcs] at h
      exact List.mem_of_mem_filter (first_min_by_mem _ _ _ h)

/-- C1: for every route, station dataset, marker and previous marker, any
station returned by `_select_station` on the corridor-mapped set satisfies
`detour_miles ≤ 25`: the mapped set only admits stations within the
corridor radius and the selector (including both fallbacks) draws only
from that set. -/
theorem selected_station_within_corridor (hav : ℚ → ℚ → ℚ → ℚ → ℚ)
    (rcos : ℚ → ℚ) (stations : List Station)
    (route_points : List (ℚ × ℚ)) (cumulative : List ℚ)
    (marker previous_marker : ℚ) (s : MappedStation)
    (hsel : select_station
        (map_stations_to_route hav rcos stations route_points cumulative)
        marker previous_marker = some s) :
    s.detour_miles ≤ CORRIDOR_RADIUS_MILES :=
  map_stations_to_route_detour_le hav rcos stations route_points cumulative s
    (select_station_mem _ _ _ _ hsel)

/-- Witness for the C1 theorem at a concrete one-point route with one
station sitting directly on it. -/
theorem selected_station_within_corridor_witness :
    (select_station (map_stations_to_route (fun _ _ _ _ => 0) (fun _ => 1)
        [⟨"S", "C", "ST", 3, 0, 0⟩] [(0, 0)] [0]) 0 0
      = some ⟨⟨"S", "C", "ST", 3, 0, 0⟩, 0, 0⟩) ∧
    (⟨⟨"S", "C", "ST", 3, 0, 0⟩, 0, 0⟩ : MappedStation).detour_miles
      ≤ CORRIDOR_RADIUS_MILES := by
  have hmap : map_stations_to_route (fun _ _ _ _ => 0) (fun _ => 1)
      [⟨"S", "C", "ST", 3, 0, 0⟩] [(0, 0)] [0]
      = [⟨⟨"S", "C", "ST", 3, 0, 0⟩, 0, 0⟩] := by
    norm_num [map_stations_to_route, route_bbox, list_min, list_max, py_range,
      sampled_indexes, best_sample, corridor_entry, List.range_succ,
      List.filterMap_cons, List.getD, CORRIDOR_RADIUS_MILES]
  have h : select_station (map_stations_to_route (fun _ _ _ _ => 0) (fun _ => 1)
      [⟨"S", "C", "ST", 3, 0, 0⟩] [(0, 0)] [0]) 0 0
      = some ⟨⟨"S", "C", "ST", 3, 0, 0⟩, 0, 0⟩ := by
    rw [hmap]
    norm_num [select_station, select_station_go, window_candidates, py_min_by,
      WAYPOINT_WINDOWS_MILES, List.filter]
  exact ⟨h, selected_station_within_corridor (fun _ _ _ _ => 0) (fun _ => 1)
    [⟨"S", "C", "ST", 3, 0, 0⟩] [(0, 0)] [0] 0 0
    ⟨⟨"S", "C", "ST", 3, 0, 0⟩, 0, 0⟩ h⟩

/-- The comma-separated branch of `_parse_coords` (views.py lines 71-83),
embedded at the point where both comma-separated parts have parsed as the
numbers `a` and `b`. -/
def parse_coords_pair (a b : ℚ) : List ℚ :=
  if |a| > 90 ∧ |b| ≤ 90 then [a, b]
  else if |b| > 90 ∧ |a| ≤ 90 then [b, a]
  else [a, b]

/-- C7: the heuristic swap of `_parse_coords` on comma-separated numeric
text `a,b` returns `[b, a]` exactly when `|b| > 90` and `|a| ≤ 90`, and
`[a, b]` in every other case (including when `|a| > 90` with `|b| ≤ 90`,
and when neither exceeds 90), so the over-90 component always lands in the
longitude slot. -/
theorem parse_coords_pair_swap (a b : ℚ) :
    (|b| > 90 ∧ |a| ≤ 90 → parse_coords_pair a b = [b, a]) ∧
    (¬(|b| > 90 ∧ |a| ≤ 90) → parse_coords_pair a b = [a, b]) := by
  constructor
  · intro hba
    unfold parse_coords_pair
    rw [if_neg (by rintro ⟨h1, _⟩; linarith [hba.2]), if_pos ⟨hba.1, hba.2⟩]
  · intro h
    unfold parse_coords_pair
    by_cases h1 : |a| > 90 ∧ |b| ≤ 90
    · rw [if_pos h1]
    · rw [if_neg h1, if_neg h]

/-- Witness for the C7 theorem: one swapped input and one pass-through
input. -/
theorem parse_coords_pair_swap_witness :
    parse_coords_pair 50 100 = [100, 50] ∧ parse_coords_pair 100 50 = [100, 50] :=
  ⟨(parse_coords_pair_swap 50 100).1 (by norm_num),
   (parse_coords_pair_swap 100 50).2 (by norm_num)⟩

/-- The accumulation loop of `_build_cumulative_miles` (views.py lines
109-113); route points are `(latitude, longitude)` pairs and `hav`
abstracts `_haversine_miles`. -/
def cumulative_from (hav : ℚ → ℚ → ℚ → ℚ → ℚ) :
    ℚ → ℚ × ℚ → List (ℚ × ℚ) → List ℚ
  | _, _, [] => []
  | acc, p, q :: rest =>
    (acc + hav p.1 p.2 q.1 q.2)
      :: cumulative_from hav (acc + hav p.1 p.2 q.1 q.2) q rest

/-- Embedding of `_build_cumulative_miles(route_points)` (views.py lines
106-114). -/
def build_cumulative_miles (hav : ℚ → ℚ → ℚ → ℚ → ℚ) :
    List (ℚ × ℚ) → List ℚ
  | [] => [0]
  | p :: rest => 0 :: cumulative_from hav 0 p rest

/-- The total-distance computation of `_build_trip_plan` (views.py lines
307-310): the last cumulative value when the table is non-empty, otherwise
the routed `distance_meters` divided by 1609.344. -/
def total_distance_miles (hav : ℚ → ℚ → ℚ → ℚ → ℚ)
    (route_points : List (ℚ × ℚ)) (distance_meters : ℚ) : ℚ :=
  match (build_cumulative_miles hav route_points).getLast? with
  | some t => t
  | none => distance_meters / (1609344 / 1000)

/-- C6: the cumulative-mileage table is never empty (it is `[0.0]` for an
empty or one-point route), so the total distance used by `_build_trip_plan`
always equals the last cumulative value; the meters-to-miles fallback is
unreachable and the total does not depend on the routed
`distance_meters`. -/
theorem total_distance_eq_last_cumulative (hav : ℚ → ℚ → ℚ → ℚ → ℚ)
    (route_points : List (ℚ × ℚ)) (distance_meters : ℚ) :
    build_cumulative_miles hav route_points ≠ [] ∧
    total_distance_miles hav route_points distance_meters
      = (build_cumulative_miles hav route_points).getLastD 0 ∧
    build_cumulative_miles hav [] = [0] ∧
    (∀ p, build_cumulative_miles hav [p] = [0]) ∧
    (∀ d, total_distance_miles hav route_points d
      = total_distance_miles hav route_points distance_meters) := by
  have hne : build_cumulative_miles hav route_points ≠ [] := by
    cases route_points with
    | nil => simp [build_cumulative_miles]
    | cons p rest => simp [build_cumulative_miles]
  have hlast : ∀ d : ℚ, total_distance_miles hav route_points d
      = (build_cumulative_miles hav route_points).getLastD 0 := by
    intro d
    unfold total_distance_miles
    cases hgl : (build_cumulative_miles hav route_points).getLast? with
    | none =>
      exact absurd (List.getLast?_eq_none_iff.mp hgl) hne
    | some t =>
      rw [List.getLastD_eq_getLast?, hgl]
      rfl
  refine ⟨hne, hlast distance_meters, rfl, fun p => rfl, fun d => ?_⟩
  rw [hlast d, hlast distance_meters]

/-- Tagged fuel-stop record: the per-marker dict appended by
`_build_trip_plan` (views.py lines 328-335 for gap entries, lines 344-359
for filled stops).  A filled stop carries the selected station and the
rounded purchase figures exactly as stored in the dict. -/
inductive FuelStop where
  | gap (order : ℕ) (route_mile_marker segment_distance_miles : ℚ)
      (note : String)
  | filled (order : ℕ) (route_mile_marker segment_distance_miles : ℚ)
      (station : MappedStation)
      (distance_to_route_miles price_per_gallon_usd gallons_purchased
        segment_cost_usd : ℚ)
deriving DecidableEq

/-- The 1-based `order` field of a fuel stop. -/
def FuelStop.order : FuelStop → ℕ
  | gap o _ _ _ => o
  | filled o _ _ _ _ _ _ _ => o

/-- Python's `"name" in stop` test (views.py line 394): true exactly for
filled stops. -/
def FuelStop.isFilled : FuelStop → Bool
  | gap _ _ _ _ => false
  | filled _ _ _ _ _ _ _ _ => true

/-- The fuel-stop loop of `_build_trip_plan` (views.py lines 315-359):
iterate the waypoint markers with 1-based `order`, skip non-positive
segments, record a gap or a filled stop, advance `previous_marker` either
way, and accumulate the un-rounded total cost (`ℚ` addition is
associative, so right-accumulation yields the same value as the source's
running sum). -/
def build_stops (mapped : List MappedStation) (total : ℚ) :
    ℕ → ℚ → List ℚ → List FuelStop × ℚ × List ℚ
  | _, _, [] => ([], 0, [])
  | order, previous_marker, marker :: rest =>
    let segment_distance := min MAX_RANGE_MILES (total - marker)
    if segment_distance ≤ 0 then
      build_stops mapped total (order + 1) previous_marker rest
    else
      match select_station mapped marker previous_marker with
      | none =>
        let r := build_stops mapped total (order + 1) marker rest
        (.gap order (round2 marker) (round2 segment_distance)
            "No geocoded station found near this route segment." :: r.1,
         r.2.1, round2 marker :: r.2.2)
      | some s =>
        let gallons := segment_distance / MPG
        let segment_cost := gallons * s.price
        let r := build_stops mapped total (order + 1) marker rest
        (.filled order (round2 marker) (round2 segment_distance) s
            (round2 s.detour_miles) (round3 s.price) (round2 gallons)
            (round2 segment_cost) :: r.1,
         segment_cost + r.2.1, r.2.2)

/-- The plan object assembled by `_build_trip_plan` (views.py lines
374-411), restricted to its structured content; the dict serialization
(including the map-link URLs) is `plan_assoc` below. -/
structure TripPlan where
  start_coords : ℚ × ℚ
  finish_coords : ℚ × ℚ
  start_with_full_tank : Bool
  total_distance_miles : ℚ
  total_fuel_consumed_gallons : ℚ
  total_fuel_purchased_gallons : ℚ
  total_fuel_cost_usd : ℚ
  number_of_fuel_stops : ℕ
  fuel_stops : List FuelStop
  route_polyline : String
  missing_station_markers : List ℚ
deriving DecidableEq

/-- Embedding of `_to_route_points` (views.py lines 249-255): the decoded
path when present, otherwise the two-point `[start, finish]` segment
(coordinates arrive as `[lon, lat]` and route points are `(lat, lon)`). -/
def to_route_points (decoded : List (ℚ × ℚ))
    (start_coords finish_coords : ℚ × ℚ) : List (ℚ × ℚ) :=
  if decoded.isEmpty then
    [(start_coords.2, start_coords.1), (finish_coords.2, finish_coords.1)]
  else decoded

/-- The route/corridor/waypoint/stop pipeline of `_build_trip_plan`
(views.py lines 306-317 and 320-359), from the point where the external
routing service has returned. -/
def trip_stop_results (hav : ℚ → ℚ → ℚ → ℚ → ℚ) (rcos : ℚ → ℚ)
    (stations : List Station) (start_coords finish_coords : ℚ × ℚ)
    (distance_meters : ℚ) (decoded_route : List (ℚ × ℚ))
    (start_with_full_tank : Bool) : List FuelStop × ℚ × List ℚ :=
  let route_points := to_route_points decoded_route start_coords finish_coords
  let total := total_distance_miles hav route_points distance_meters
  let mapped := map_stations_to_route hav rcos stations route_points
      (build_cumulative_miles hav route_points)
  build_stops mapped total 1 (-MAX_RANGE_MILES)
    (build_waypoint_markers total start_with_full_tank)

/-- Embedding of `_build_trip_plan` after the collaborator calls (views.py
lines 306-411): runs the stop pipeline and assembles the plan object with
the rounded summary figures. -/
def build_trip_plan_core (hav : ℚ → ℚ → ℚ → ℚ → ℚ) (rcos : ℚ → ℚ)
    (stations : List Station) (start_coords finish_coords : ℚ × ℚ)
    (distance_meters : ℚ) (encoded_polyline : String)
    (decoded_route : List (ℚ × ℚ)) (start_with_full_tank : Bool) : TripPlan :=
  let route_points := to_route_points decoded_route start_coords finish_coords
  let total := total_distance_miles hav route_points distance_meters
  let r := trip_stop_results hav rcos stations start_coords finish_coords
      distance_meters decoded_route start_with_full_tank
  let purchasable :=
    max (total - (if start_with_full_tank then MAX_RANGE_MILES else 0)) 0
  { start_coords := start_coords
    finish_coords := finish_coords
    start_with_full_tank := start_with_full_tank
    total_distance_miles := round2 total
    total_fuel_consumed_gallons := round2 (total / MPG)
    total_fuel_purchased_gallons := round2 (purchasable / MPG)
    total_fuel_cost_usd := round2 r.2.1
    number_of_fuel_stops := r.1.countP FuelStop.isFilled
    fuel_stops := r.1
    route_polyline := encoded_polyline
    missing_station_markers := r.2.2 }

theorem build_stops_cost_pos (mapped : List MappedStation) (total : ℚ)
    (hpos : ∀ s ∈ mapped, 0 < s.price) :
    ∀ (markers : List ℚ) (order : ℕ) (prev : ℚ),
      0 ≤ (build_stops mapped total order prev markers).2.1 ∧
      ((∃ stop ∈ (build_stops mapped total order prev markers).1,
          stop.isFilled = true) →
        0 < (build_stops mapped total order prev markers).2.1) := by
  intro markers
  induction markers with
  | nil =>
    intro order prev
    refine ⟨le_refl 0, ?_⟩
    rintro ⟨stop, hmem, _⟩
    exact absurd hmem (List.not_mem_nil stop)
  | cons m rest ih =>
    intro order prev
    simp only [build_stops]
    by_cases hseg : min MAX_RANGE_MILES (total - m) ≤ 0
    · rw [if_pos hseg]
      exact ih (order + 1) prev
    · rw [if_neg hseg]
      cases hsel : select_station mapped m prev with
      | none =>
        simp only []
        refine ⟨(ih (order + 1) m).1, ?_⟩
        rintro ⟨stop, hmem, hfill⟩
        rcases List.mem_cons.mp hmem with rfl | hmem
        · cases hfill
        · exact (ih (order + 1) m).2 ⟨stop, hmem, hfill⟩
      | some s =>
        simp only []
        have hprice : 0 < s.price :=
          hpos s (select_station_mem mapped m prev s hsel)
        have hsegpos : 0 < min MAX_RANGE_MILES (total - m) := not_le.mp hseg
        have hcost : 0 < min MAX_RANGE_MILES (total - m) / MPG * s.price := by
          apply mul_pos _ hprice
          apply div_pos hsegpos
          norm_num [MPG]
        have hrest := (ih (order + 1) m).1
        refine ⟨by linarith, fun _ => by linarith⟩

/-- Every marker strictly below `total` yields exactly one fuel-stop entry
with consecutively increasing `order`; the skip branch is unreachable. -/
theorem build_stops_orders (mapped : List MappedStation) (total : ℚ) :
    ∀ (markers : List ℚ), (∀ m ∈ markers, m < total) →
      ∀ (order : ℕ) (prev : ℚ),
        (build_stops mapped total order prev markers).1.map FuelStop.order
          = List.range' order markers.length ∧
        (build_stops mapped total order prev markers).1.length
          = markers.length := by
  intro markers
  induction markers with
  | nil =>
    intro _ order prev
    exact ⟨rfl, rfl⟩
  | cons m rest ih =>
    intro hlt order prev
    have hm : m < total := hlt m (List.mem_cons_self m rest)
    have hrest : ∀ x ∈ rest, x < total :=
      fun x hx => hlt x (List.mem_cons_of_mem m hx)
    have hseg : ¬ min MAX_RANGE_MILES (total - m) ≤ 0 := by
      push_neg
      apply lt_min
      · norm_num [MAX_RANGE_MILES]
      · linarith
    simp only [build_stops]
    rw [if_neg hseg]
    cases hsel : select_station mapped m prev with
    | none =>
      simp only [List.map_cons, List.length_cons]
      have := ih hrest (order + 1) m
      rw [this.1, this.2, List.range'_succ]
      exact ⟨rfl, rfl⟩
    | some s =>
      simp only [List.map_cons, List.length_cons]
      have := ih hrest (order + 1) m
      rw [this.1, this.2, List.range'_succ]
      exact ⟨rfl, rfl⟩

/-- Distance function for the concrete edge scenarios below: 500.004 miles
between two route samples at latitude 0, and 0 miles from any other point
(in particular from the test station at latitude 1/2). -/
def hav_edge (lat1 : ℚ) (_ : ℚ) (lat2 : ℚ) (_ : ℚ) : ℚ :=
  if lat1 = 0 ∧ lat2 = 0 then 500 + 4 / 1000 else 0

theorem edge_cumulative :
    build_cumulative_miles hav_edge [(0, 0), (0, 0)] = [0, 500 + 4 / 1000] := by
  norm_num [build_cumulative_miles, cumulative_from, hav_edge]

theorem edge_total :
    total_distance_miles hav_edge [(0, 0), (0, 0)] 0 = 500 + 4 / 1000 := by
  rw [total_distance_miles, edge_cumulative]
  rfl

theorem edge_mapped :
    map_stations_to_route hav_edge (fun _ => 1) [⟨"S", "C", "ST", 3, 1/2, 0⟩]
      [(0, 0), (0, 0)] [0, 500 + 4 / 1000]
      = [⟨⟨"S", "C", "ST", 3, 1/2, 0⟩, 0, 0⟩] := by
  norm_num [map_stations_to_route, route_bbox, list_min, list_max, py_range,
    sampled_indexes, best_sample, corridor_entry, hav_edge, List.range_succ,
    List.filterMap_cons, List.getD, CORRIDOR_RADIUS_MILES]

theorem edge_markers : build_waypoint_markers (500 + 4 / 1000) true = [500] := by
  have h1 : markers_loop (500 + 4 / 1000) (500 + MAX_RANGE_MILES) = [] :=
    markers_loop_eq_nil _ _ (by norm_num [MAX_RANGE_MILES])
  have h2 : markers_loop (500 + 4 / 1000) 500 = [500] := by
    rw [markers_loop, dif_pos (by norm_num : (500 : ℚ) < 500 + 4 / 1000), h1]
  rw [build_waypoint_markers, if_neg (by norm_num : ¬ (500 + 4 / 1000 : ℚ) ≤ 0)]
  simpa [MAX_RANGE_MILES] using h2

theorem edge_select :
    select_station [⟨⟨"S", "C", "ST", 3, 1/2, 0⟩, 0, 0⟩] 500 (-500)
      = some ⟨⟨"S", "C", "ST", 3, 1/2, 0⟩, 0, 0⟩ := by
  norm_num [select_station, select_station_go, window_candidates,
    backtrack_candidates, py_min_by, WAYPOINT_WINDOWS_MILES, List.filter]

theorem edge_stops :
    build_stops [⟨⟨"S", "C", "ST", 3, 1/2, 0⟩, 0, 0⟩] (500 + 4 / 1000)
      1 (-500) [500]
      = ([FuelStop.filled 1 500 0 ⟨⟨"S", "C", "ST", 3, 1/2, 0⟩, 0, 0⟩ 0 3 0 0],
         3 / 2500, []) := by
  norm_num [build_stops, edge_select, round2, round3, round_eq, MPG,
    MAX_RANGE_MILES, min_def]

theorem edge_plan_stops :
    (build_trip_plan_core hav_edge (fun _ => 1) [⟨"S", "C", "ST", 3, 1/2, 0⟩]
        (0, 0) (0, 0) 0 "poly" [(0, 0), (0, 0)] true).fuel_stops
      = [FuelStop.filled 1 500 0 ⟨⟨"S", "C", "ST", 3, 1/2, 0⟩, 0, 0⟩ 0 3 0 0] := by
  simp only [build_trip_plan_core, trip_stop_results, to_route_points,
    List.isEmpty_cons, Bool.false_eq_true, if_false, edge_total,
    edge_cumulative, edge_mapped, edge_markers, MAX_RANGE_MILES, edge_stops]

theorem edge_plan_cost :
    (build_trip_plan_core hav_edge (fun _ => 1) [⟨"S", "C", "ST", 3, 1/2, 0⟩]
        (0, 0) (0, 0) 0 "poly" [(0, 0), (0, 0)] true).total_fuel_cost_usd = 0 := by
  simp only [build_trip_plan_core, trip_stop_results, to_route_points,
    List.isEmpty_cons, Bool.false_eq_true, if_false, edge_total,
    edge_cumulative, edge_mapped, edge_markers, MAX_RANGE_MILES, edge_stops]
  norm_num [round2, round_eq]

/-- C5 counterexample: a 500.004-mile trip on a full starting tank fills
its single stop at a $3/gallon station (0.0004 gallons for the final 0.004
miles, cost $0.0012), yet the reported `total_fuel_cost_usd` is 0 after
rounding to cents, so the claimed strict positivity fails as stated. -/
theorem reported_cost_zero_despite_filled_stop :
    (build_trip_plan_core hav_edge (fun _ => 1) [⟨"S", "C", "ST", 3, 1/2, 0⟩]
        (0, 0) (0, 0) 0 "poly" [(0, 0), (0, 0)] true).total_fuel_cost_usd = 0 ∧
    (build_trip_plan_core hav_edge (fun _ => 1) [⟨"S", "C", "ST", 3, 1/2, 0⟩]
        (0, 0) (0, 0) 0 "poly" [(0, 0), (0, 0)] true).fuel_stops
      = [FuelStop.filled 1 500 0 ⟨⟨"S", "C", "ST", 3, 1/2, 0⟩, 0, 0⟩ 0 3 0 0] ∧
    (0 : ℚ) < 3 :=
  ⟨edge_plan_cost, edge_plan_stops, by norm_num⟩

/-- C5 (amended): under the dataset invariant that every corridor-mapped
station has a strictly positive price, the un-rounded cost accumulated by
the stop loop is strictly positive whenever at least one stop is filled;
the reported `total_fuel_cost_usd` equals that value rounded to cents
(which the counterexample shows can collapse a positive value to 0). -/
theorem trip_cost_pos_of_filled_stop (hav : ℚ → ℚ → ℚ → ℚ → ℚ) (rcos : ℚ → ℚ)
    (stations : List Station) (start_coords finish_coords : ℚ × ℚ)
    (distance_meters : ℚ) (encoded_polyline : String)
    (decoded_route : List (ℚ × ℚ)) (start_with_full_tank : Bool)
    (hpos : ∀ s ∈ map_stations_to_route hav rcos stations
        (to_route_points decoded_route start_coords finish_coords)
        (build_cumulative_miles hav
          (to_route_points decoded_route start_coords finish_coords)),
      0 < s.price)
    (hfill : ∃ stop ∈ (build_trip_plan_core hav rcos stations start_coords
        finish_coords distance_meters encoded_polyline decoded_route
        start_with_full_tank).fuel_stops, stop.isFilled = true) :
    0 < (trip_stop_results hav rcos stations start_coords finish_coords
        distance_meters decoded_route start_with_full_tank).2.1 ∧
    (build_trip_plan_core hav rcos stations start_coords finish_coords
        distance_meters encoded_polyline decoded_route
        start_with_full_tank).total_fuel_cost_usd
      = round2 (trip_stop_results hav rcos stations start_coords finish_coords
          distance_meters decoded_route start_with_full_tank).2.1 := by
  simp only [build_trip_plan_core, trip_stop_results] at hfill ⊢
  exact ⟨(build_stops_cost_pos _ _ hpos _ 1 _).2 hfill, trivial⟩

/-- Witness for the amended C5 theorem at the 500.004-mile scenario. -/
theorem trip_cost_pos_of_filled_stop_witness :
    0 < (trip_stop_results hav_edge (fun _ => 1) [⟨"S", "C", "ST", 3, 1/2, 0⟩]
        (0, 0) (0, 0) 0 [(0, 0), (0, 0)] true).2.1 := by
  have hroute : to_route_points [(0, 0), (0, 0)] ((0 : ℚ), (0 : ℚ))
      ((0 : ℚ), (0 : ℚ)) = [(0, 0), (0, 0)] := rfl
  have hpos : ∀ s ∈ map_stations_to_route hav_edge (fun _ => 1)
      [⟨"S", "C", "ST", 3, 1/2, 0⟩]
      (to_route_points [(0, 0), (0, 0)] ((0 : ℚ), (0 : ℚ)) ((0 : ℚ), (0 : ℚ)))
      (build_cumulative_miles hav_edge
        (to_route_points [(0, 0), (0, 0)] ((0 : ℚ), (0 : ℚ)) ((0 : ℚ), (0 : ℚ)))),
      0 < s.price := by
    rw [hroute, edge_cumulative, edge_mapped]
    intro s hs
    have hs' : s = ⟨⟨"S", "C", "ST", 3, 1/2, 0⟩, 0, 0⟩ := List.mem_singleton.mp hs
    subst hs'
    show (0 : ℚ) < 3
    norm_num
  have hfill : ∃ stop ∈ (build_trip_plan_core hav_edge (fun _ => 1)
      [⟨"S", "C", "ST", 3, 1/2, 0⟩] (0, 0) (0, 0) 0 "poly"
      [(0, 0), (0, 0)] true).fuel_stops, stop.isFilled = true := by
    rw [edge_plan_stops]
    exact ⟨_, List.mem_singleton.mpr rfl, rfl⟩
  exact (trip_cost_pos_of_filled_stop hav_edge (fun _ => 1)
    [⟨"S", "C", "ST", 3, 1/2, 0⟩] (0, 0) (0, 0) 0 "poly" [(0, 0), (0, 0)] true
    hpos hfill).1

theorem edge_mapped_empty :
    map_stations_to_route hav_edge (fun _ => 1) [] [(0, 0), (0, 0)]
      [0, 500 + 4 / 1000] = [] := by
  norm_num [map_stations_to_route]

theorem edge_stops_gap :
    build_stops [] (500 + 4 / 1000) 1 (-500) [500]
      = ([FuelStop.gap 1 500 0
            "No geocoded station found near this route segment."], 0, [500]) := by
  norm_num [build_stops, select_station, round2, round_eq, MAX_RANGE_MILES,
    min_def]

theorem edge_plan_gap :
    (build_trip_plan_core hav_edge (fun _ => 1) [] (0, 0) (0, 0) 0 "poly"
        [(0, 0), (0, 0)] true).number_of_fuel_stops = 0 ∧
    (build_trip_plan_core hav_edge (fun _ => 1) [] (0, 0) (0, 0) 0 "poly"
        [(0, 0), (0, 0)] true).fuel_stops.length = 1 := by
  simp only [build_trip_plan_core, trip_stop_results, to_route_points,
    List.isEmpty_cons, Bool.false_eq_true, if_false, edge_total,
    edge_cumulative, edge_mapped_empty, edge_markers, MAX_RANGE_MILES,
    edge_stops_gap]
  decide

/-- C10: every trip plan contains exactly one fuel-stop entry per waypoint
marker - a station entry or a gap entry, never skipping a marker, since
each marker's segment distance `min(500, total - marker)` is strictly
positive - with `order` fields running consecutively from 1; the summary
field `number_of_fuel_stops` counts only the entries carrying a station,
so it is at most, and can be strictly smaller than, the length of
`fuel_stops` (strictness witnessed by the all-gap plan of the edge
scenario). -/
theorem fuel_stops_one_per_marker (hav : ℚ → ℚ → ℚ → ℚ → ℚ) (rcos : ℚ → ℚ)
    (stations : List Station) (start_coords finish_coords : ℚ × ℚ)
    (distance_meters : ℚ) (encoded_polyline : String)
    (decoded_route : List (ℚ × ℚ)) (start_with_full_tank : Bool) :
    ((build_trip_plan_core hav rcos stations start_coords finish_coords
        distance_meters encoded_polyline decoded_route
        start_with_full_tank).fuel_stops.map FuelStop.order
      = List.range' 1 (build_waypoint_markers
          (total_distance_miles hav
            (to_route_points decoded_route start_coords finish_coords)
            distance_meters) start_with_full_tank).length) ∧
    ((build_trip_plan_core hav rcos stations start_coords finish_coords
        distance_meters encoded_polyline decoded_route
        start_with_full_tank).fuel_stops.length
      = (build_waypoint_markers
          (total_distance_miles hav
            (to_route_points decoded_route start_coords finish_coords)
            distance_meters) start_with_full_tank).length) ∧
    ((build_trip_plan_core hav rcos stations start_coords finish_coords
        distance_meters encoded_polyline decoded_route
        start_with_full_tank).number_of_fuel_stops
      = (build_trip_plan_core hav rcos stations start_coords finish_coords
          distance_meters encoded_polyline decoded_route
          start_with_full_tank).fuel_stops.countP FuelStop.isFilled) ∧
    ((build_trip_plan_core hav rcos stations start_coords finish_coords
        distance_meters encoded_polyline decoded_route
        start_with_full_tank).number_of_fuel_stops
      ≤ (build_trip_plan_core hav rcos stations start_coords finish_coords
          distance_meters encoded_polyline decoded_route
          start_with_full_tank).fuel_stops.length) ∧
    ((build_trip_plan_core hav_edge (fun _ => 1) [] (0, 0) (0, 0) 0 "poly"
        [(0, 0), (0, 0)] true).number_of_fuel_stops
      < (build_trip_plan_core hav_edge (fun _ => 1) [] (0, 0) (0, 0) 0 "poly"
          [(0, 0), (0, 0)] true).fuel_stops.length) := by
  have hm := (build_waypoint_markers_shape
    (total_distance_miles hav
      (to_route_points decoded_route start_coords finish_coords)
      distance_meters) start_with_full_tank).2.2.1
  have horders := build_stops_orders
    (map_stations_to_route hav rcos stations
      (to_route_points decoded_route start_coords finish_coords)
      (build_cumulative_miles hav
        (to_route_points decoded_route start_coords finish_coords)))
    (total_distance_miles hav
      (to_route_points decoded_route start_coords finish_coords)
      distance_meters)
    (build_waypoint_markers
      (total_distance_miles hav
        (to_route_points decoded_route start_coords finish_coords)
        distance_meters) start_with_full_tank)
    hm 1 (-MAX_RANGE_MILES)
  refine ⟨horders.1, horders.2, rfl, ?_, ?_⟩
  · exact List.countP_le_length _
  · rw [edge_plan_gap.1, edge_plan_gap.2]
    norm_num

/-- JSON-like values for the serialized plan dict. -/
inductive JVal where
  | s (v : String)
  | q (v : ℚ)
  | n (v : ℕ)
  | b (v : Bool)
  | arr (vs : List JVal)
  | obj (fields : List (String × JVal))

/-- Model of `urllib.parse.quote_plus` for the characters that occur at
the call sites (digits, sign, period, comma, space). -/
def quote_plus_text (str : String) : String :=
  String.join (str.toList.map (fun c =>
    if c = ',' then "%2C" else if c = ' ' then "+" else String.singleton c))

/-- Serialization of one fuel stop into its dict (views.py lines 328-335
and 344-359). -/
def fuel_stop_json : FuelStop → JVal
  | .gap o m seg note => .obj [("order", .n o), ("route_mile_marker", .q m),
      ("segment_distance_miles", .q seg), ("note", .s note)]
  | .filled o m seg st detour price gall cost => .obj
      [("order", .n o), ("route_mile_marker", .q m),
       ("segment_distance_miles", .q seg), ("name", .s st.name),
       ("city", .s st.city), ("state", .s st.state),
       ("latitude", .q st.latitude), ("longitude", .q st.longitude),
       ("distance_to_route_miles", .q detour),
       ("price_per_gallon_usd", .q price),
       ("gallons_purchased", .q gall), ("segment_cost_usd", .q cost)]

/-- Embedding of `_build_start_end_map_urls` (views.py lines 268-282);
numeric formatting is abstracted by Lean's `toString` on `ℚ`. -/
def build_start_end_map_urls (start_coords finish_coords : ℚ × ℚ) : JVal :=
  .obj [("openstreetmap_directions", .s
      ("https://www.openstreetmap.org/directions?engine=fossgis_osrm_car&route="
        ++ toString start_coords.2 ++ "%2C" ++ toString start_coords.1
        ++ "%3B" ++ toString finish_coords.2 ++ "%2C"
        ++ toString finish_coords.1)),
    ("google_maps_directions", .s
      ("https://www.google.com/maps/dir/?api=1&origin="
        ++ quote_plus_text (toString start_coords.2 ++ ","
            ++ toString start_coords.1)
        ++ "&destination="
        ++ quote_plus_text (toString finish_coords.2 ++ ","
            ++ toString finish_coords.1)
        ++ "&travelmode=driving"))]

/-- Serialization of the plan object into the response dict assembled by
`_build_trip_plan` (views.py lines 374-411), for textual start/finish
inputs; the `warnings` block is appended only when gap markers exist. -/
def plan_assoc (start_raw finish_raw : String) (p : TripPlan) :
    List (String × JVal) :=
  [("start", .obj [("input", .s start_raw),
      ("coordinates", .obj [("lon", .q p.start_coords.1),
                            ("lat", .q p.start_coords.2)])]),
   ("finish", .obj [("input", .s finish_raw),
      ("coordinates", .obj [("lon", .q p.finish_coords.1),
                            ("lat", .q p.finish_coords.2)])]),
   ("assumptions", .obj [("vehicle_range_miles", .q MAX_RANGE_MILES),
      ("mpg", .q MPG),
      ("start_with_full_tank", .b p.start_with_full_tank),
      ("corridor_radius_miles", .q CORRIDOR_RADIUS_MILES)]),
   ("summary", .obj [("total_distance_miles", .q p.total_distance_miles),
      ("total_fuel_consumed_gallons", .q p.total_fuel_consumed_gallons),
      ("total_fuel_purchased_gallons", .q p.total_fuel_purchased_gallons),
      ("total_fuel_cost_usd", .q p.total_fuel_cost_usd),
      ("number_of_fuel_stops", .n p.number_of_fuel_stops)]),
   ("fuel_stops", .arr (p.fuel_stops.map fuel_stop_json)),
   ("route_polyline", .s p.route_polyline),
   ("start_end_map", build_start_end_map_urls p.start_coords p.finish_coords),
   ("map_url", .s ("/map/?start=" ++ quote_plus_text start_raw
      ++ "&finish=" ++ quote_plus_text finish_raw
      ++ "&start_with_full_tank="
      ++ (if p.start_with_full_tank then "true" else "false")))]
  ++ (if p.missing_station_markers.isEmpty then []
      else [("warnings", .obj
        [("missing_station_markers_miles",
          .arr (p.missing_station_markers.map JVal.q)),
         ("message", .s "Some stops were estimated because no geocoded station was found nearby.")])])

/-- Embedding of `_trip_cache_key` (views.py lines 258-265) for textual
inputs (non-string inputs are JSON-serialized canonically in the source
and are not modelled). -/
def trip_cache_key (start_raw finish_raw : String)
    (start_with_full_tank : Bool) : String :=
  "trip:v2:" ++ start_raw.trim ++ ":" ++ finish_raw.trim ++ ":"
    ++ (if start_with_full_tank then "1" else "0")

/-- Model of `dict.pop("route_polyline", None)` applied to the copied
payload (views.py lines 447-448 and 457-458): drop the binding of `k`. -/
def pop_key (k : String) (d : List (String × JVal)) : List (String × JVal) :=
  d.filter (fun kv => decide (kv.1 ≠ k))

/-- Observable collaborator calls of the `route_distance` view, in
execution order; `plan_build` stands for the `_build_trip_plan` invocation
and with it the geocoding and routing calls. -/
inductive Effect where
  | cache_get (key : String)
  | plan_build (start finish : String) (start_with_full_tank : Bool)
  | cache_set (key : String) (value : List (String × JVal))
      (timeout_seconds : ℕ)

/-- HTTP outcome of the `route_distance` view: `json_error` models
`JsonResponse({"error": ...}, status=...)` and `json_ok` a 200 payload. -/
inductive RDResponse where
  | json_error (status : ℕ) (message : String)
  | json_ok (payload : List (String × JVal))

/-- Embedding of the `route_distance` view (views.py lines 429-459) for
textual inputs: the cache-lookup result and the `_build_trip_plan` outcome
(the serialized plan dict, or an error status and message) enter as
parameters, and the ordered list of collaborator calls is returned
alongside the response. -/
def route_distance (start finish : Option String)
    (start_with_full_tank : Bool)
    (cached : Option (List (String × JVal)))
    (plan_result : Except (ℕ × String) (List (String × JVal))) :
    RDResponse × List Effect :=
  match start, finish with
  | none, _ => (.json_error 400 "Both start and finish are required.", [])
  | _, none => (.json_error 400 "Both start and finish are required.", [])
  | some s, some f =>
    let key := trip_cache_key s f start_with_full_tank
    match cached with
    | some payload =>
      (.json_ok (pop_key "route_polyline" payload), [.cache_get key])
    | none =>
      match plan_result with
      | .error e =>
        (.json_error e.1 e.2,
         [.cache_get key, .plan_build s f start_with_full_tank])
      | .ok plan =>
        (.json_ok (pop_key "route_polyline" plan),
         [.cache_get key, .plan_build s f start_with_full_tank,
          .cache_set key plan 900])

theorem pop_key_not_mem (k : String) (d : List (String × JVal)) :
    k ∉ (pop_key k d).map Prod.fst := by
  intro hk
  obtain ⟨kv, hmem, hfst⟩ := List.mem_map.mp hk
  unfold pop_key at hmem
  have hne := (List.mem_filter.mp hmem).2
  simp only [decide_eq_true_iff] at hne
  exact hne hfst

/-- C9: when the start or the finish parameter is absent, `route_distance`
answers with the HTTP 400 client error and performs no collaborator call:
the cache is neither read nor written, `_build_trip_plan` (and with it the
geocoder and the routing service) is never invoked, and no partial plan is
produced. -/
theorem missing_param_client_error (start finish : Option String)
    (start_with_full_tank : Bool)
    (cached : Option (List (String × JVal)))
    (plan_result : Except (ℕ × String) (List (String × JVal)))
    (h : start = none ∨ finish = none) :
    route_distance start finish start_with_full_tank cached plan_result
      = (.json_error 400 "Both start and finish are required.", []) := by
  rcases h with rfl | rfl
  · cases finish <;> rfl
  · cases start <;> rfl

/-- Witness for the C9 theorem at a concrete request missing its start. -/
theorem missing_param_client_error_witness :
    route_distance none (some "Dallas, TX") false none
        (Except.ok ([] : List (String × JVal)))
      = (.json_error 400 "Both start and finish are required.", []) :=
  missing_param_client_error none (some "Dallas, TX") false none
    (Except.ok []) (Or.inl rfl)

/-- C8 (amended): every successful JSON payload served by `route_distance`
- freshly computed or from cache - excludes `route_polyline`; the value
stored in the cache, however, is the full plan dict as built, un-popped
(the companion counterexample exhibits `route_polyline` inside it). -/
theorem response_excludes_polyline (start finish : String)
    (start_with_full_tank : Bool)
    (cached : Option (List (String × JVal)))
    (plan_result : Except (ℕ × String) (List (String × JVal)))
    (payload : List (String × JVal))
    (hok : (route_distance (some start) (some finish) start_with_full_tank
        cached plan_result).1 = RDResponse.json_ok payload) :
    "route_polyline" ∉ payload.map Prod.fst ∧
    (∀ key value t, Effect.cache_set key value t
        ∈ (route_distance (some start) (some finish) start_with_full_tank
            cached plan_result).2 →
      plan_result = Except.ok value) := by
  cases cached with
  | some cpayload =>
    have hpay : payload = pop_key "route_polyline" cpayload := by
      have := hok.symm
      simp only [route_distance] at this
      exact (RDResponse.json_ok.inj this.symm).symm
    constructor
    · rw [hpay]
      exact pop_key_not_mem _ _
    · intro key value t hmem
      simp only [route_distance] at hmem
      rcases List.mem_singleton.mp hmem with h
      cases h
  | none =>
    cases plan_result with
    | error e =>
      exfalso
      simp only [route_distance] at hok
      cases hok
    | ok plan =>
      have hpay : payload = pop_key "route_polyline" plan := by
        simp only [route_distance] at hok
        exact (RDResponse.json_ok.inj hok).symm
      constructor
      · rw [hpay]
        exact pop_key_not_mem _ _
      · intro key value t hmem
        simp only [route_distance] at hmem
        rcases List.mem_cons.mp hmem with h | hmem
        · cases h
        rcases List.mem_cons.mp hmem with h | hmem
        · cases h
        rcases List.mem_singleton.mp hmem with h
        cases h
        rfl

/-- Witness for the amended C8 theorem: a concrete fresh computation whose
served payload carries no `route_polyline` key. -/
theorem response_excludes_polyline_witness :
    "route_polyline" ∉ (pop_key "route_polyline"
        (plan_assoc "A" "B" (build_trip_plan_core hav_edge (fun _ => 1) []
          (0, 0) (0, 0) 0 "poly" [(0, 0), (0, 0)] true))).map Prod.fst :=
  (response_excludes_polyline "A" "B" true none
    (Except.ok (plan_assoc "A" "B" (build_trip_plan_core hav_edge
      (fun _ => 1) [] (0, 0) (0, 0) 0 "poly" [(0, 0), (0, 0)] true)))
    (pop_key "route_polyline" (plan_assoc "A" "B" (build_trip_plan_core
      hav_edge (fun _ => 1) [] (0, 0) (0, 0) 0 "poly" [(0, 0), (0, 0)] true)))
    rfl).1

/-- C8 counterexample: on a fresh successful computation the view stores
the full plan dict - `route_polyline` included - under the trip cache key,
so the claim that the raw encoded path is excluded from the cached value
fails. -/
theorem cached_value_contains_polyline :
    (route_distance (some "A") (some "B") true none
        (Except.ok (plan_assoc "A" "B" (build_trip_plan_core hav_edge
          (fun _ => 1) [] (0, 0) (0, 0) 0 "poly" [(0, 0), (0, 0)] true)))).2
      = [Effect.cache_get (trip_cache_key "A" "B" true),
         Effect.plan_build "A" "B" true,
         Effect.cache_set (trip_cache_key "A" "B" true)
           (plan_assoc "A" "B" (build_trip_plan_core hav_edge (fun _ => 1) []
             (0, 0) (0, 0) 0 "poly" [(0, 0), (0, 0)] true)) 900] ∧
    "route_polyline" ∈ (plan_assoc "A" "B" (build_trip_plan_core hav_edge
        (fun _ => 1) [] (0, 0) (0, 0) 0 "poly" [(0, 0), (0, 0)] true)).map
        Prod.fst := by
  refine ⟨rfl, ?_⟩
  simp [plan_assoc]

end FuelRouting
